import Mathlib

/-!
Verification development for the caikit-nlp-client library.

The definitions below are shallow embeddings of the Python source:
  * `src/caikit_nlp_client/http_client.py` (HTTP dispatcher, streaming
    frame reassembly, error normalization, client construction), and
  * `src/caikit_nlp_client/grpc_client.py` (channel construction,
    certificate resolution, request building, operation facade).

Machine integers do not occur; fallible code is modelled with explicit
result inductives mirroring the Python exceptions that can escape
(`ValueError`, `FileNotFoundError`, `KeyError`, `json.JSONDecodeError`,
`AssertionError`, `RuntimeError`).
-/

set_option autoImplicit false

namespace CaikitNlp

/-! ## A miniature JSON object model

The Python code calls `json.loads` on accumulated byte buffers and then
treats the result as a dict.  The wire format of this client only ever
carries flat JSON objects whose values are strings or integers, so we
model exactly that fragment.  `json.loads` itself is an external library
function; `jsonDecode` below is a concrete stand-in implementing the
same contract on this fragment (in particular it fails on any
incomplete or trailing-garbage input, which is what the buffering logic
relies on). -/

inductive JsonVal where
  | int (n : Int)
  | str (s : String)
deriving DecidableEq, Repr

/-- A decoded JSON object: an ordered list of key/value entries. -/
abbrev JsonObj := List (String × JsonVal)

/-- Python dict lookup after `json.loads`: a later duplicate key wins,
hence the lookup on the reversed entry list. -/
def jsonGet (o : JsonObj) (k : String) : Option JsonVal :=
  o.reverse.lookup k

/-- Membership test, as in Python `"k" in message`. -/
def jsonHasKey (o : JsonObj) (k : String) : Bool :=
  (jsonGet o k).isSome

/-- Python `"{}".format(v)` / `f"{v}"` on a decoded JSON scalar. -/
def JsonVal.pyFormat : JsonVal → String
  | .str s => s
  | .int n => toString n

/-- `pyFormat` lifted to an optional value (used only under a
`jsonHasKey` guard, where the value is present). -/
def pyFormatOpt : Option JsonVal → String
  | some v => v.pyFormat
  | none => ""

/-- The `"` character (written via its code point to keep JSON literals
readable as escape sequences elsewhere). -/
def quoteChar : Char := Char.ofNat 34

/-- The opening-brace character of a JSON object. -/
def lbraceChar : Char := Char.ofNat 123

/-- The closing-brace character of a JSON object. -/
def rbraceChar : Char := Char.ofNat 125

/-- Consume characters up to the closing quote of a JSON string
literal; fails when the input ends before the quote. -/
def spanString : List Char → Option (List Char × List Char)
  | [] => none
  | c :: cs =>
    if c = quoteChar then some ([], cs)
    else
      match spanString cs with
      | some (s, rest) => some (c :: s, rest)
      | none => none

/-- Split a leading run of decimal digits off the input. -/
def spanDigits : List Char → List Char × List Char
  | [] => ([], [])
  | c :: cs =>
    if c.isDigit then
      let (ds, rest) := spanDigits cs
      (c :: ds, rest)
    else ([], c :: cs)

/-- Value of a non-empty digit run. -/
def digitsToNat (ds : List Char) : Nat :=
  ds.foldl (fun n c => n * 10 + (c.toNat - 48)) 0

/-- Parse one JSON scalar (quoted string or integer). -/
def parseScalar : List Char → Option (JsonVal × List Char)
  | [] => none
  | c :: cs =>
    if c = quoteChar then
      match spanString cs with
      | some (s, rest) => some (.str (String.mk s), rest)
      | none => none
    else if c = '-' then
      match spanDigits cs with
      | ([], _) => none
      | (ds, rest) => some (.int (-(digitsToNat ds : Int)), rest)
    else
      match spanDigits (c :: cs) with
      | ([], _) => none
      | (ds, rest) => some (.int (digitsToNat ds), rest)

/-- Parse the members of a JSON object after the opening brace,
consuming the closing brace.  `fuel` bounds the number of members. -/
def parseMembers : Nat → List Char → Option (JsonObj × List Char)
  | 0, _ => none
  | fuel + 1, cs =>
    match cs with
    | c :: rest =>
      if c = quoteChar then
        match spanString rest with
        | some (k, r1) =>
          match r1 with
          | ':' :: r2 =>
            match parseScalar r2 with
            | some (v, r3) =>
              match r3 with
              | ',' :: r4 =>
                match parseMembers fuel r4 with
                | some (ms, r) => some ((String.mk k, v) :: ms, r)
                | none => none
              | d :: r4 =>
                if d = rbraceChar then some ([(String.mk k, v)], r4) else none
              | [] => none
            | none => none
          | _ => none
        | none => none
      else none
    | [] => none

/-- Decode a complete JSON object from a string; any leftover input or
truncated object is a decode failure, as with `json.loads`. -/
def jsonDecode (s : String) : Option JsonObj :=
  match s.toList with
  | c :: rest =>
    if c = lbraceChar then
      match rest with
      | [d] => if d = rbraceChar then some [] else none
      | _ =>
        match parseMembers (rest.length + 1) rest with
        | some (ms, []) => some ms
        | _ => none
    else none
  | [] => none

example : jsonDecode "\x7b\x7d" = some [] := by decide
example : jsonDecode "\x7b\"a\":1\x7d" = some [("a", .int 1)] := by decide
example : jsonDecode "\x7b\"a\":1" = none := by decide
example : jsonDecode "" = none := by decide
example :
    jsonDecode "\x7b\"details\":\"boom\",\"code\":400\x7d" =
      some [("details", .str "boom"), ("code", .int 400)] := by decide

/-! ## Streaming frame reassembly

`HttpClient.generate_text_stream` (http_client.py lines 267-303)
iterates over the raw lines of an event-stream response body,
accumulating a buffer of byte chunks and decoding it between blank
lines.  Two views of that loop are embedded:

  * `reassemble_lines` is the framing/buffering/decoding part of the
    loop (lines 267-286 and the final-residual decode in lines
    292-293), with the per-frame consumption abstracted away: it
    collects each successfully decoded object, in order.  This is the
    "streaming frame reassembler" component.

  * `generate_text_stream_lines` is the whole loop body, including the
    per-frame error-marker inspection and `generated_text` extraction
    (lines 287-291 and 294-303).

Both are parameterized by the JSON decoder so that the buffering logic
can be reasoned about for an arbitrary decoder; the concrete runs use
`jsonDecode`. -/

/-- Python `bytes.startswith` on a wire line (kernel-reducible stand-in
for `String.startsWith`; the framing prefixes are ASCII, so the
character-level test agrees with the byte-level one). -/
def startsWithB (s pre : String) : Bool :=
  pre.toList.isPrefixOf s.toList

/-- Python `line[n:]` on a wire line (the dropped framing prefixes are
ASCII, so dropping characters agrees with dropping bytes). -/
def dropB (s : String) (n : Nat) : String :=
  String.mk (s.toList.drop n)

/-- How the reassembly part of the loop can finish. -/
inductive ReassemblyEnd where
  | ok
  /-- an `assert not line[k:]` on an `event:` line failed -/
  | assertError
  /-- the residual buffer at stream end was not valid JSON
  (`json.loads` raises, uncaught, at line 293) -/
  | finalDecodeError
deriving DecidableEq, Repr

/-- The sequence of frames decoded by the loop, with how it ended. -/
structure Reassembly where
  frames : List JsonObj
  ending : ReassemblyEnd
deriving DecidableEq, Repr

/-- The framing/buffering/decoding logic of
`HttpClient.generate_text_stream`.  The first list is the accumulation
`buffer` (a list of byte chunks, joined for each decode attempt, as in
the source); the second is the remaining input lines. -/
def reassemble_lines (decode : String → Option JsonObj) :
    List String → List String → Reassembly
  | buffer, [] =>
    -- `if buffer:` after the loop — residual decode at stream end
    if buffer.isEmpty then ⟨[], .ok⟩
    else
      match decode (String.join buffer) with
      | none => ⟨[], .finalDecodeError⟩
      | some m => ⟨[m], .ok⟩
  | buffer, line :: rest =>
    if line ≠ "" ∧ startsWithB line "data: " then
      reassemble_lines decode (buffer ++ [dropB line 6]) rest
    else if line ≠ "" ∧ startsWithB line "event: message" then
      if line.length = 14 then reassemble_lines decode buffer rest
      else ⟨[], .assertError⟩
    else if line ≠ "" ∧ startsWithB line "event: error" then
      if line.length = 12 then reassemble_lines decode buffer rest
      else ⟨[], .assertError⟩
    else
      -- blank line, or a non-blank line matching no framing prefix:
      -- attempt to decode the joined buffer
      match decode (String.join buffer) with
      | none => reassemble_lines decode buffer rest
      | some m =>
        let r := reassemble_lines decode [] rest
        ⟨m :: r.frames, r.ending⟩

/-- The reassembler run from an empty buffer. -/
def reassemble (decode : String → Option JsonObj) (lines : List String) :
    Reassembly :=
  reassemble_lines decode [] lines

/-- How the full `generate_text_stream` loop can finish. -/
inductive StreamEnd where
  | ok
  /-- `RuntimeError` raised with the given message -/
  | runtimeError (msg : String)
  /-- a raw `KeyError` from `message["generated_text"]` at line 291 -/
  | keyError
  /-- an `assert not line[k:]` on an `event:` line failed -/
  | assertError
  /-- the residual buffer at stream end was not valid JSON -/
  | jsonDecodeError
deriving DecidableEq, Repr

/-- The values yielded by the generator, with how it ended. -/
structure StreamTrace where
  yielded : List JsonVal
  ending : StreamEnd
deriving DecidableEq, Repr

/-- The full loop body of `HttpClient.generate_text_stream`
(http_client.py lines 267-303): reassembly plus, per decoded frame, the
`details`/`code` error-marker check and `generated_text` extraction. -/
def generate_text_stream_lines (decode : String → Option JsonObj) :
    List String → List String → StreamTrace
  | buffer, [] =>
    if buffer.isEmpty then ⟨[], .ok⟩
    else
      match decode (String.join buffer) with
      | none => ⟨[], .jsonDecodeError⟩
      | some m =>
        if jsonHasKey m "details" ∧ jsonHasKey m "code" then
          ⟨[], .runtimeError
            ("Exception iterating responses: " ++ pyFormatOpt (jsonGet m "details"))⟩
        else
          match jsonGet m "generated_text" with
          | some v => ⟨[v], .ok⟩
          | none =>
            ⟨[], .runtimeError
              "Unexpected response from the server: generated text is missing"⟩
  | buffer, line :: rest =>
    if line ≠ "" ∧ startsWithB line "data: " then
      generate_text_stream_lines decode (buffer ++ [dropB line 6]) rest
    else if line ≠ "" ∧ startsWithB line "event: message" then
      if line.length = 14 then generate_text_stream_lines decode buffer rest
      else ⟨[], .assertError⟩
    else if line ≠ "" ∧ startsWithB line "event: error" then
      if line.length = 12 then generate_text_stream_lines decode buffer rest
      else ⟨[], .assertError⟩
    else
      match decode (String.join buffer) with
      | none => generate_text_stream_lines decode buffer rest
      | some m =>
        -- `buffer.clear()` then the marker check, then the yield
        if jsonHasKey m "details" ∧ jsonHasKey m "code" then
          ⟨[], .runtimeError
            ("Exception iterating responses: " ++ pyFormatOpt (jsonGet m "details"))⟩
        else
          match jsonGet m "generated_text" with
          | some v =>
            let r := generate_text_stream_lines decode [] rest
            ⟨v :: r.yielded, r.ending⟩
          | none => ⟨[], .keyError⟩

/-- The generator run from an empty buffer. -/
def generate_text_stream_run (decode : String → Option JsonObj)
    (lines : List String) : StreamTrace :=
  generate_text_stream_lines decode [] lines

example :
    reassemble jsonDecode
      ["data: \x7b\"a\":1\x7d", "", "data: \x7b\"a\":2\x7d", ""] =
      ⟨[[("a", .int 1)], [("a", .int 2)]], .ok⟩ := by decide

example :
    reassemble jsonDecode
      ["data: \x7b\"a\":1\x7d", "", "data: \x7b\"a\":2\x7d"] =
      ⟨[[("a", .int 1)], [("a", .int 2)]], .ok⟩ := by decide

example :
    generate_text_stream_run jsonDecode
      ["data: \x7b\"generated_text\":\"hi\"\x7d", "",
       "data: \x7b\"details\":\"boom\",\"code\":400\x7d", "",
       "data: \x7b\"generated_text\":\"bye\"\x7d", ""] =
      ⟨[.str "hi"], .runtimeError "Exception iterating responses: boom"⟩ := by
  decide

example :
    generate_text_stream_run jsonDecode ["data: \x7b\"a\":1\x7d", ""] =
      ⟨[], .keyError⟩ := by decide

/-! ## HTTP response normalization

`HttpClient.generate_text` (http_client.py lines 188-203) and
`HttpClient._unpack_or_raise_details` (lines 519-541) turn an HTTP
response into a result or an exception. -/

/-- The parts of a `requests.Response` the handlers inspect.
`jsonBody = none` models a body that is not JSON, where
`response.json()` raises `json.JSONDecodeError`. -/
structure HttpResponse where
  status : Nat
  jsonBody : Option JsonObj
  reason : String
  text : String
deriving DecidableEq, Repr

/-- Outcome of handling a response. -/
inductive HttpOutcome where
  /-- a parsed JSON body returned (`_unpack_or_raise_details`) -/
  | ok (o : JsonObj)
  /-- the `generated_text` value returned (`generate_text`) -/
  | okVal (v : JsonVal)
  /-- `RuntimeError` raised with the given message -/
  | runtimeError (msg : String)
  /-- a raw `KeyError` on the given key -/
  | keyError (key : String)
  /-- an uncaught `json.JSONDecodeError` -/
  | jsonDecodeError
deriving DecidableEq, Repr

/-- A single-quote character as a string. -/
def squote : String := String.mk [Char.ofNat 39]

/-- Python `repr` of a string, as rendered by an f-string `{x=}`
(escaping inside the text is not modelled). -/
def pyRepr (s : String) : String :=
  squote ++ s ++ squote

/-- The `f"response.status_code={n}"` prefix of the raised message. -/
def statusPrefix (status : Nat) : String :=
  "response.status_code=" ++ toString status ++ " "

/-- Response handling of `HttpClient.generate_text` (http_client.py
lines 195-203): on 200 extract `generated_text`; otherwise read the
`details` key of the JSON body — only `json.JSONDecodeError` is caught
(falling back to the reason phrase), so a JSON body without a
`details` key raises a `KeyError`. -/
def generate_text_handle (r : HttpResponse) : HttpOutcome :=
  if r.status = 200 then
    match r.jsonBody with
    | none => .jsonDecodeError
    | some o =>
      match jsonGet o "generated_text" with
      | some v => .okVal v
      | none => .keyError "generated_text"
  else
    match r.jsonBody with
    | none =>
      .runtimeError (statusPrefix r.status ++ r.reason ++ " response.text=" ++ pyRepr r.text)
    | some o =>
      match jsonGet o "details" with
      | some v => .runtimeError (statusPrefix r.status ++ v.pyFormat)
      | none => .keyError "details"

/-- `HttpClient._unpack_or_raise_details` (http_client.py lines
519-541) with `details_field=None`: on 200 return the parsed body;
otherwise probe the `details` key and fall back to `detail`; a
non-JSON body falls back to the reason phrase. -/
def unpack_or_raise_details (r : HttpResponse) : HttpOutcome :=
  if r.status = 200 then
    match r.jsonBody with
    | none => .jsonDecodeError
    | some o => .ok o
  else
    match r.jsonBody with
    | none =>
      .runtimeError (statusPrefix r.status ++ r.reason ++ " response.text=" ++ pyRepr r.text)
    | some o =>
      let field := if jsonHasKey o "details" then "details" else "detail"
      match jsonGet o field with
      | some v => .runtimeError (statusPrefix r.status ++ v.pyFormat)
      | none => .keyError "detail"

/-! ## HTTP client construction

`HttpClient.__init__` (http_client.py lines 18-82): TLS argument
validation. -/

/-- Python truthiness of an `Optional[str]` (both `None` and the empty
string are falsy). -/
def optStrTruthy : Option String → Bool
  | some s => !s.isEmpty
  | none => false

/-- Constructor arguments of `HttpClient`. -/
structure HttpClientArgs where
  base_url : String
  verify : Option Bool
  ca_cert_path : Option String
  client_cert_path : Option String
  client_key_path : Option String
deriving DecidableEq, Repr

/-- `HttpClient._mtls_configured` (http_client.py lines 80-82):
`all((client_key_path, client_cert_path, ca_cert_path))`. -/
def mtls_configured (a : HttpClientArgs) : Bool :=
  optStrTruthy a.client_key_path && optStrTruthy a.client_cert_path &&
    optStrTruthy a.ca_cert_path

/-- The constructed client state (the endpoint URLs it derives). -/
structure HttpClientState where
  api_base : String
  api_url : String
  stream_api_url : String
  verify : Option Bool
  ca_cert_path : Option String
  client_cert_path : Option String
  client_key_path : Option String
deriving DecidableEq, Repr

/-- Result of `HttpClient.__init__`. -/
inductive HttpInitResult where
  | ok (c : HttpClientState)
  | valueError (msg : String)
deriving DecidableEq, Repr

/-- `HttpClient.__init__` (http_client.py lines 18-82). -/
def http_client_init (a : HttpClientArgs) : HttpInitResult :=
  if a.verify = some false ∧ optStrTruthy a.ca_cert_path then
    .valueError "Cannot use verify=False with ca_cert_path"
  else if (optStrTruthy a.client_key_path || optStrTruthy a.client_cert_path) &&
      !mtls_configured a then
    .valueError "Must provide both client_cert_path and client_key_path for mTLS"
  else
    .ok
      { api_base := a.base_url
        api_url := a.base_url ++ "/api/v1/task/text-generation"
        stream_api_url := a.base_url ++ "/api/v1/task/server-streaming-text-generation"
        verify := a.verify
        ca_cert_path := a.ca_cert_path
        client_cert_path := a.client_cert_path
        client_key_path := a.client_key_path }

/-! ## gRPC certificate resolution and channel construction

`GrpcClient._try_load_certificate` (grpc_client.py lines 341-356) and
`GrpcClient._make_channel` (lines 272-339). -/

/-- Python `str.strip()` (kernel-reducible stand-in for
`String.trim`): drop leading and trailing whitespace characters. -/
def trimB (s : String) : String :=
  String.mk
    (((s.toList.dropWhile Char.isWhitespace).reverse.dropWhile Char.isWhitespace).reverse)

/-- A value passed as certificate material: `None`, raw bytes, a path
string, or a value of any other type (with its Python truthiness). -/
inductive CertValue where
  | pyNone
  | bytes (b : String)
  | str (path : String)
  | other (truthy : Bool)
deriving DecidableEq, Repr

/-- Python truthiness of a certificate argument. -/
def CertValue.pyTruthy : CertValue → Bool
  | .pyNone => false
  | .bytes b => !b.isEmpty
  | .str s => !s.isEmpty
  | .other t => t

/-- Result of `_try_load_certificate`. -/
inductive LoadResult where
  | ok (b : Option String)
  /-- `FileNotFoundError` from `open` -/
  | fileNotFound (path : String)
  /-- `ValueError` for an unsupported type -/
  | valueError (msg : String)
deriving DecidableEq, Repr

/-- `GrpcClient._try_load_certificate` (grpc_client.py lines 341-356).
The filesystem is a map from paths to file contents (`none` = the path
does not exist). -/
def try_load_certificate (fs : String → Option String) :
    CertValue → LoadResult
  | v =>
    if !v.pyTruthy then .ok none
    else
      match v with
      | .bytes b => .ok (some b)
      | .str path =>
        match fs path with
        | some contents => .ok (some contents)
        | none => .fileNotFound path
      | .pyNone => .ok none
      | .other _ =>
        .valueError "certificate should be a path to a certificate files or bytes"

/-- The keyword arguments accumulated into
`grpc.ssl_channel_credentials(**credentials_kwargs)`. -/
structure SslCreds where
  root_certificates : Option String
  private_key : Option String
  certificate_chain : Option String
deriving DecidableEq, Repr

/-- Result of `_make_channel`: a channel of one of the two kinds, or
an exception. -/
inductive ChannelResult where
  | insecureChannel (connection : String)
  | secureChannel (connection : String) (creds : SslCreds)
  | valueError (msg : String)
  | fileNotFound (path : String)
deriving DecidableEq, Repr

/-- Arguments of `_make_channel`, in source order. -/
structure MakeChannelArgs where
  host : String
  port : Int
  insecure : Bool
  verify : Option Bool
  ca_cert : CertValue
  client_key : CertValue
  client_cert : CertValue
deriving DecidableEq, Repr

/-- Python truthiness of the loaded `Optional[bytes]`. -/
def optBytesTruthy : Option String → Bool
  | some b => !b.isEmpty
  | none => false

/-- `GrpcClient._make_channel` (grpc_client.py lines 272-339).
`serverCert` models the PEM text returned by
`get_server_certificate(host, port)` when verification is skipped. -/
def make_channel (fs : String → Option String) (serverCert : String)
    (a : MakeChannelArgs) : ChannelResult :=
  if trimB a.host = "" then .valueError "A non empty host name is required"
  else if a.port ≤ 0 then .valueError "A non zero port number is required"
  else if a.insecure ∧
      (a.ca_cert ≠ CertValue.pyNone ∨ a.client_key ≠ CertValue.pyNone ∨
        a.client_cert ≠ CertValue.pyNone) then
    .valueError "cannot use insecure with TLS/mTLS certificates"
  else if a.insecure ∧ a.verify = some true then
    .valueError "insecure cannot be used with verify"
  else
    match try_load_certificate fs a.client_key with
    | .fileNotFound p => .fileNotFound p
    | .valueError m => .valueError m
    | .ok client_key_bytes =>
      match try_load_certificate fs a.client_cert with
      | .fileNotFound p => .fileNotFound p
      | .valueError m => .valueError m
      | .ok client_cert_bytes =>
        match try_load_certificate fs a.ca_cert with
        | .fileNotFound p => .fileNotFound p
        | .valueError m => .valueError m
        | .ok ca_cert_bytes =>
          let connection := a.host ++ ":" ++ toString a.port
          if a.insecure then .insecureChannel connection
          else
            let creds :=
              if optBytesTruthy ca_cert_bytes &&
                  !(optBytesTruthy client_cert_bytes || optBytesTruthy client_key_bytes) then
                SslCreds.mk ca_cert_bytes none none
              else if optBytesTruthy client_cert_bytes && optBytesTruthy client_key_bytes &&
                  optBytesTruthy ca_cert_bytes then
                SslCreds.mk ca_cert_bytes client_key_bytes client_cert_bytes
              else if a.verify = some false then
                SslCreds.mk (some serverCert) none none
              else
                SslCreds.mk none none none
            .secureChannel connection creds

/-! ## gRPC request construction

`GrpcClient._make_request` (grpc_client.py lines 374-416) and the
request-building part of `GrpcClient.generate_text_stream` (lines
219-249).  The dynamically discovered request schema is the list of
field names of the request message; keyword values are carried as
their rendered string forms. -/

/-- A constructed protobuf request message. -/
structure GrpcRequest where
  fields : List (String × String)
deriving DecidableEq, Repr

/-- Modelled external behaviour of the protobuf message constructor
`Request(**kwargs)`: setting a keyword with no corresponding field in
the message schema raises `ValueError('Protocol message ... has no
"<name>" field.')`, from which the client's handler extracts the field
name; the error here carries that name directly. -/
def protoNewMessage (schema : List String) (kwargs : List (String × String)) :
    Except String GrpcRequest :=
  match kwargs.find? (fun kv => !schema.contains kv.1) with
  | some kv => .error kv.1
  | none => .ok ⟨kwargs⟩

/-- Python `kwargs.get(key)` rendered into an f-string (absent keys
format as `None`). -/
def pyGet (kwargs : List (String × String)) (k : String) : String :=
  match kwargs.lookup k with
  | some v => v
  | none => "None"

/-- Outcome of building and dispatching a request. -/
inductive RequestOutcome where
  /-- the RPC is issued at this endpoint with this message and
  metadata -/
  | rpcIssued (endpoint : String) (req : GrpcRequest) (metadata : List (String × String))
  /-- `ValueError` raised before any RPC -/
  | invalidArgument (msg : String)
deriving DecidableEq, Repr

/-- `GrpcClient._make_request` (grpc_client.py lines 374-416): pop
`model_id` into metadata, construct the request message, and rewrite
an unknown-field error into `Unsupported kwarg: <name>=<value>`. -/
def grpc_make_request (schema : List String) (methodName serviceName : String)
    (kwargs : List (String × String)) : RequestOutcome :=
  let hasModel := (kwargs.lookup "model_id").isSome
  let metadata :=
    match kwargs.lookup "model_id" with
    | some mid => [("mm-model-id", mid)]
    | none => []
  let kwargs' := if hasModel then kwargs.filter (fun kv => kv.1 ≠ "model_id") else kwargs
  match protoNewMessage schema kwargs' with
  | .error key =>
    .invalidArgument ("Unsupported kwarg: " ++ key ++ "=" ++ pyGet kwargs' key)
  | .ok req => .rpcIssued ("/" ++ serviceName ++ "/" ++ methodName) req metadata

/-! ## Operation facade

The public operations of both clients.  Each is embedded down to the
request it would send, so that the position of the empty-`model_id`
check relative to any network activity is visible in the result.
Keyword/parameter values are carried as their rendered string forms;
nested inputs (sentence lists, documents) are carried opaquely. -/

/-- `GrpcClient.generate_text` (grpc_client.py lines 99-140), up to the
dispatch of the unary RPC. -/
def grpc_generate_text (schema : List String) (model_id text : String)
    (kwargs : List (String × String)) : RequestOutcome :=
  if model_id = "" then .invalidArgument "request must have a model id"
  else
    grpc_make_request schema "TextGenerationTaskPredict" "caikit.runtime.Nlp.NlpService"
      (("model_id", model_id) :: ("text", text) :: kwargs)

/-- The request-building part of `GrpcClient.generate_text_stream`
(grpc_client.py lines 183-258): validate `model_id`, construct
`Request(text=text, **kwargs)` (rewriting an unknown-field error into
`Unsupported kwarg: ...`), and dispatch the streaming RPC with
`mm-model-id` metadata. -/
def grpc_generate_text_stream (schema : List String) (model_id text : String)
    (kwargs : List (String × String)) : RequestOutcome :=
  if model_id = "" then .invalidArgument "request must have a model id"
  else
    match protoNewMessage schema (("text", text) :: kwargs) with
    | .error key =>
      .invalidArgument ("Unsupported kwarg: " ++ key ++ "=" ++ pyGet kwargs key)
    | .ok req =>
      .rpcIssued
        "/caikit.runtime.Nlp.NlpService/ServerStreamingTextGenerationTaskPredict"
        req [("mm-model-id", model_id)]

/-- `GrpcClient.embedding` (grpc_client.py lines 418-437), up to the
dispatch of the unary RPC. -/
def grpc_embedding (schema : List String) (model_id text truncate : String) :
    RequestOutcome :=
  if model_id = "" then .invalidArgument "request must have a model id"
  else
    grpc_make_request schema "EmbeddingTaskPredict" "caikit.runtime.Nlp.NlpService"
      [("model_id", model_id), ("text", text), ("truncate_input_tokens", truncate)]

/-- `GrpcClient.sentence_similarity` (grpc_client.py lines 462-478),
up to the dispatch of the unary RPC. -/
def grpc_sentence_similarity (schema : List String)
    (model_id source_sentence : String) (sentences : List String)
    (truncate : String) : RequestOutcome :=
  if model_id = "" then .invalidArgument "request must have a model id"
  else
    grpc_make_request schema "SentenceSimilarityTaskPredict" "caikit.runtime.Nlp.NlpService"
      [("model_id", model_id), ("source_sentence", source_sentence),
        ("sentences", toString sentences), ("truncate_input_tokens", truncate)]

/-- `GrpcClient.rerank` (grpc_client.py lines 498-538), up to the
dispatch of the unary RPC; the documents are dicts by construction
here, so the `isinstance` check of the source cannot fire and the
remaining keyword arguments are rendered opaquely. -/
def grpc_rerank (schema : List String) (model_id : String)
    (documents : List String) (query : String) (top_n : String) :
    RequestOutcome :=
  if model_id = "" then .invalidArgument "request must have a model id"
  else
    grpc_make_request schema "RerankTaskPredict" "caikit.runtime.Nlp.NlpService"
      [("model_id", model_id), ("documents", toString documents),
        ("query", query), ("top_n", top_n)]

/-- The JSON body posted by the HTTP text endpoints:
`{"model_id": ..., "inputs": ..., "parameters"?: ...}`. -/
structure JsonRequest where
  model_id : String
  inputs : String
  parameters : Option (List (String × String))
deriving DecidableEq, Repr

/-- `HttpClient._create_json_request` (http_client.py lines 305-312);
`if kwargs:` means an empty keyword dict adds no `parameters` key. -/
def create_json_request (model_id text : String)
    (kwargs : List (String × String)) : JsonRequest :=
  ⟨model_id, text, if kwargs.isEmpty then none else some kwargs⟩

/-- Python truthiness of the `parameters: Optional[dict]` argument
(`None` and the empty dict are both falsy). -/
def pyDictOpt (parameters : Option (List (String × String))) :
    Option (List (String × String)) :=
  match parameters with
  | some ps => if ps.isEmpty then none else some ps
  | none => none

/-- An HTTP operation either raises before any network activity or
posts a payload to a URL. -/
inductive HttpAction (α : Type) where
  | invalidArgument (msg : String)
  | post (url : String) (payload : α)
deriving DecidableEq, Repr

/-- `HttpClient.generate_text` (http_client.py lines 142-193), up to
the POST. -/
def http_generate_text (base_url model_id text : String)
    (kwargs : List (String × String)) : HttpAction JsonRequest :=
  if model_id = "" then .invalidArgument "request must have a model id"
  else
    .post (base_url ++ "/api/v1/task/text-generation")
      (create_json_request model_id text kwargs)

/-- The request-building part of `HttpClient.generate_text_stream`
(http_client.py lines 205-265), up to the POST. -/
def http_generate_text_stream (base_url model_id text : String)
    (kwargs : List (String × String)) : HttpAction JsonRequest :=
  if model_id = "" then .invalidArgument "request must have a model id"
  else
    .post (base_url ++ "/api/v1/task/server-streaming-text-generation")
      ⟨model_id, text, if kwargs.isEmpty then none else some kwargs⟩

/-- `HttpClient.embedding` (http_client.py lines 329-356), up to the
POST. -/
def http_embedding (base_url model_id text : String)
    (parameters : Option (List (String × String))) : HttpAction JsonRequest :=
  if model_id = "" then .invalidArgument "request must have a model id"
  else
    .post (base_url ++ "/api/v1/task/embedding")
      ⟨model_id, text, pyDictOpt parameters⟩

/-- The JSON body of the sentence-similarity endpoint. -/
structure SimilarityRequest where
  source_sentence : String
  sentences : List String
  model_id : String
  parameters : Option (List (String × String))
deriving DecidableEq, Repr

/-- `HttpClient.sentence_similarity` (http_client.py lines 387-418),
up to the POST. -/
def http_sentence_similarity (base_url model_id source_sentence : String)
    (sentences : List String)
    (parameters : Option (List (String × String))) :
    HttpAction SimilarityRequest :=
  if model_id = "" then .invalidArgument "request must have a model id"
  else
    .post (base_url ++ "/api/v1/task/sentence-similarity")
      ⟨source_sentence, sentences, model_id, pyDictOpt parameters⟩

/-- The JSON body of the rerank endpoint (documents carried
opaquely). -/
structure RerankRequest where
  documents : List String
  query : String
  model_id : String
  parameters : Option (List (String × String))
deriving DecidableEq, Repr

/-- `HttpClient.rerank` (http_client.py lines 453-484), up to the
POST. -/
def http_rerank (base_url model_id : String) (documents : List String)
    (query : String) (parameters : Option (List (String × String))) :
    HttpAction RerankRequest :=
  if model_id = "" then .invalidArgument "request must have a model id"
  else
    .post (base_url ++ "/api/v1/task/rerank")
      ⟨documents, query, model_id, pyDictOpt parameters⟩

/-! ## Theorems for the claims -/

/-- C7: for both transports, every public operation taking a
`model_id` — generate, stream-generate, embedding, similarity,
rerank — raises `InvalidArgument` ("request must have a model id") as
its first action when `model_id` is the empty string; the result is
the raised error, not a dispatched request or POST, so no network call
is attempted. -/
theorem C7_empty_model_id :
    (∀ schema text kwargs,
        grpc_generate_text schema "" text kwargs =
          .invalidArgument "request must have a model id")
    ∧ (∀ schema text kwargs,
        grpc_generate_text_stream schema "" text kwargs =
          .invalidArgument "request must have a model id")
    ∧ (∀ schema text truncate,
        grpc_embedding schema "" text truncate =
          .invalidArgument "request must have a model id")
    ∧ (∀ schema source sentences truncate,
        grpc_sentence_similarity schema "" source sentences truncate =
          .invalidArgument "request must have a model id")
    ∧ (∀ schema documents query top_n,
        grpc_rerank schema "" documents query top_n =
          .invalidArgument "request must have a model id")
    ∧ (∀ base_url text kwargs,
        http_generate_text base_url "" text kwargs =
          .invalidArgument "request must have a model id")
    ∧ (∀ base_url text kwargs,
        http_generate_text_stream base_url "" text kwargs =
          .invalidArgument "request must have a model id")
    ∧ (∀ base_url text parameters,
        http_embedding base_url "" text parameters =
          .invalidArgument "request must have a model id")
    ∧ (∀ base_url source sentences parameters,
        http_sentence_similarity base_url "" source sentences parameters =
          .invalidArgument "request must have a model id")
    ∧ (∀ base_url documents query parameters,
        http_rerank base_url "" documents query parameters =
          .invalidArgument "request must have a model id") := by
  refine ⟨?_, ?_, ?_, ?_, ?_, ?_, ?_, ?_, ?_, ?_⟩ <;>
    intros <;> rfl

/-- C10: constructing the HTTP client with a (non-empty) client
certificate path and client key path but without a CA certificate path
raises `ValueError` ("Must provide both client_cert_path and
client_key_path for mTLS"): `_mtls_configured` requires all three of
key, certificate and CA, so a complete cert/key pair alone is
rejected. -/
theorem C10_http_mtls_requires_ca (a : HttpClientArgs)
    (hc : optStrTruthy a.client_cert_path = true)
    (hk : optStrTruthy a.client_key_path = true)
    (hca : optStrTruthy a.ca_cert_path = false) :
    http_client_init a =
      .valueError "Must provide both client_cert_path and client_key_path for mTLS" := by
  simp [http_client_init, mtls_configured, hc, hk, hca]

/-- Witness for C10 at a concrete input: both halves of the pair given
as non-empty paths, no CA path. -/
theorem C10_http_mtls_requires_ca_witness :
    http_client_init
        ⟨"https://localhost:8080", none, none, some "client_cert.pem", some "client_key.pem"⟩ =
      .valueError "Must provide both client_cert_path and client_key_path for mTLS" :=
  C10_http_mtls_requires_ca
    ⟨"https://localhost:8080", none, none, some "client_cert.pem", some "client_key.pem"⟩
    (by decide) (by decide) (by decide)

/-- C6 counterexample: the certificate resolver is not the identity on
every raw-bytes value — `if not certificate:` treats the empty byte
string as absent, so `resolve(b"")` returns `None` rather than `b""`. -/
theorem C6_cert_resolver_counterexample :
    try_load_certificate (fun _ => none) (CertValue.bytes "") = .ok none ∧
      try_load_certificate (fun _ => none) (CertValue.bytes "") ≠ .ok (some "") := by
  exact ⟨by decide, by decide⟩

/-- C6 amended: `resolve(None)` returns `None`; `resolve(B)` is the
identity on *non-empty* bytes, while empty bytes (and the empty path
string) are treated as absent and return `None`; a non-empty string is
read as a filesystem path, returning the file contents, with
`NotFound` when the path does not exist; a value of any other (truthy)
type raises `InvalidArgument` (a falsy one returns `None`). -/
theorem C6_cert_resolver_amended :
    (∀ fs, try_load_certificate fs CertValue.pyNone = .ok none)
    ∧ (∀ fs b, b ≠ "" → try_load_certificate fs (CertValue.bytes b) = .ok (some b))
    ∧ (∀ fs, try_load_certificate fs (CertValue.bytes "") = .ok none ∧
        try_load_certificate fs (CertValue.str "") = .ok none)
    ∧ (∀ fs p c, p ≠ "" → fs p = some c →
        try_load_certificate fs (CertValue.str p) = .ok (some c))
    ∧ (∀ fs p, p ≠ "" → fs p = none →
        try_load_certificate fs (CertValue.str p) = .fileNotFound p)
    ∧ (∀ fs, try_load_certificate fs (CertValue.other true) =
          .valueError "certificate should be a path to a certificate files or bytes" ∧
        try_load_certificate fs (CertValue.other false) = .ok none) := by
  refine ⟨fun fs => rfl, ?_, fun fs => ⟨rfl, rfl⟩, ?_, ?_, fun fs => ⟨rfl, rfl⟩⟩
  · intro fs b hb
    simp [try_load_certificate, CertValue.pyTruthy, String.isEmpty_iff, hb]
  · intro fs p c hp hc
    simp [try_load_certificate, CertValue.pyTruthy, String.isEmpty_iff, hp, hc]
  · intro fs p hp hc
    simp [try_load_certificate, CertValue.pyTruthy, String.isEmpty_iff, hp, hc]

/-- Witness for C6 (amended) at concrete inputs: non-empty bytes are
returned unchanged; an existing path is read; a missing path reports
`NotFound`. -/
theorem C6_cert_resolver_amended_witness :
    try_load_certificate (fun p => if p = "ca.pem" then some "PEMDATA" else none)
        (CertValue.bytes "CERTBYTES") = .ok (some "CERTBYTES") ∧
      try_load_certificate (fun p => if p = "ca.pem" then some "PEMDATA" else none)
          (CertValue.str "ca.pem") = .ok (some "PEMDATA") ∧
      try_load_certificate (fun p => if p = "ca.pem" then some "PEMDATA" else none)
          (CertValue.str "missing.pem") = .fileNotFound "missing.pem" :=
  ⟨C6_cert_resolver_amended.2.1 _ "CERTBYTES" (by decide),
    C6_cert_resolver_amended.2.2.2.1 _ "ca.pem" "PEMDATA" (by decide) (by decide),
    C6_cert_resolver_amended.2.2.2.2.1 _ "missing.pem" (by decide) (by decide)⟩

/-- C4 counterexample: requesting `insecure=True` together with the
explicit `verify=False` ("skip verification") flag does **not** raise —
`if insecure and verify:` only fires for a truthy `verify` — and a
plaintext channel is returned. -/
theorem C4_insecure_flags_counterexample :
    make_channel (fun _ => none) "SERVERPEM"
        ⟨"localhost", 443, true, some false, .pyNone, .pyNone, .pyNone⟩ =
      .insecureChannel "localhost:443" := by
  decide

/-- C4 amended: with `insecure=true` (and valid host/port), any
non-`None` certificate material raises `InvalidArgument`, and
`verify=True` raises `InvalidArgument`; but `verify=False` together
with `insecure` is accepted: a plaintext channel is returned before
any certificate handling. -/
theorem C4_insecure_flags_amended :
    (∀ fs sc (a : MakeChannelArgs), trimB a.host ≠ "" → 0 < a.port →
        a.insecure = true →
        (a.ca_cert ≠ CertValue.pyNone ∨ a.client_key ≠ CertValue.pyNone ∨
          a.client_cert ≠ CertValue.pyNone) →
        make_channel fs sc a = .valueError "cannot use insecure with TLS/mTLS certificates")
    ∧ (∀ fs sc (a : MakeChannelArgs), trimB a.host ≠ "" → 0 < a.port →
        a.insecure = true → a.ca_cert = .pyNone → a.client_key = .pyNone →
        a.client_cert = .pyNone → a.verify = some true →
        make_channel fs sc a = .valueError "insecure cannot be used with verify")
    ∧ (∀ fs sc (a : MakeChannelArgs), trimB a.host ≠ "" → 0 < a.port →
        a.insecure = true → a.ca_cert = .pyNone → a.client_key = .pyNone →
        a.client_cert = .pyNone → a.verify ≠ some true →
        make_channel fs sc a = .insecureChannel (a.host ++ ":" ++ toString a.port)) := by
  refine ⟨?_, ?_, ?_⟩
  · intro fs sc a hh hp hi hcert
    have hple : ¬(a.port ≤ 0) := by omega
    simp [make_channel, hh, hple, hi, hcert]
  · intro fs sc a hh hp hi hca hck hcc hv
    have hple : ¬(a.port ≤ 0) := by omega
    simp [make_channel, hh, hple, hi, hca, hck, hcc, hv]
  · intro fs sc a hh hp hi hca hck hcc hv
    have hple : ¬(a.port ≤ 0) := by omega
    simp [make_channel, hh, hple, hi, hca, hck, hcc, hv,
      try_load_certificate, CertValue.pyTruthy]

/-- Witness for C4 (amended) at concrete inputs: a certificate with
`insecure`, `verify=True` with `insecure`, and plain `insecure`. -/
theorem C4_insecure_flags_amended_witness :
    make_channel (fun _ => none) "SERVERPEM"
        ⟨"localhost", 443, true, none, .bytes "CA", .pyNone, .pyNone⟩ =
      .valueError "cannot use insecure with TLS/mTLS certificates" ∧
    make_channel (fun _ => none) "SERVERPEM"
        ⟨"localhost", 443, true, some true, .pyNone, .pyNone, .pyNone⟩ =
      .valueError "insecure cannot be used with verify" ∧
    make_channel (fun _ => none) "SERVERPEM"
        ⟨"localhost", 443, true, none, .pyNone, .pyNone, .pyNone⟩ =
      .insecureChannel "localhost:443" :=
  ⟨C4_insecure_flags_amended.1 _ _ _ (by decide) (by decide) rfl
      (Or.inl (by decide)),
    C4_insecure_flags_amended.2.1 _ _ _ (by decide) (by decide) rfl rfl rfl rfl rfl,
    C4_insecure_flags_amended.2.2 _ _ _ (by decide) (by decide) rfl rfl rfl rfl
      (by decide)⟩

/-- C1 counterexample: an (insecure-not-requested) configuration
supplying a client certificate but neither client key nor CA does
**not** raise — `_make_channel` falls through every credentials branch
and returns a secure channel built from empty credentials kwargs. -/
theorem C1_mtls_partial_counterexample :
    make_channel (fun _ => none) "SERVERPEM"
        ⟨"localhost", 443, false, none, .pyNone, .pyNone, .bytes "CLIENTCERT"⟩ =
      .secureChannel "localhost:443" ⟨none, none, none⟩ := by
  decide

/-- C1 amended: with `insecure` not requested, valid host/port and all
certificate material loading successfully, `_make_channel` never
raises for a partial mTLS combination: it always returns a secure
channel (CA-only root trust, full mTLS, fetched-server-cert root
trust, or default credentials, per its branch conditions — partial
client material is silently ignored). -/
theorem C1_mtls_partial_amended (fs : String → Option String) (sc : String)
    (a : MakeChannelArgs) (hh : trimB a.host ≠ "") (hp : 0 < a.port)
    (hi : a.insecure = false)
    (hk : ∃ b, try_load_certificate fs a.client_key = .ok b)
    (hc : ∃ b, try_load_certificate fs a.client_cert = .ok b)
    (hca : ∃ b, try_load_certificate fs a.ca_cert = .ok b) :
    ∃ creds, make_channel fs sc a =
      .secureChannel (a.host ++ ":" ++ toString a.port) creds := by
  obtain ⟨bk, hbk⟩ := hk
  obtain ⟨bc, hbc⟩ := hc
  obtain ⟨bca, hbca⟩ := hca
  have hple : ¬(a.port ≤ 0) := by omega
  refine ⟨?_, ?_⟩
  case _ => exact
    if optBytesTruthy bca && !(optBytesTruthy bc || optBytesTruthy bk) then
      SslCreds.mk bca none none
    else if optBytesTruthy bc && optBytesTruthy bk && optBytesTruthy bca then
      SslCreds.mk bca bk bc
    else if a.verify = some false then SslCreds.mk (some sc) none none
    else SslCreds.mk none none none
  simp [make_channel, hh, hple, hi, hbk, hbc, hbca]

/-- Witness for C1 (amended) at a concrete input: a client certificate
alone (no key, no CA) yields a secure channel, not an error. -/
theorem C1_mtls_partial_amended_witness :
    ∃ creds, make_channel (fun _ => none) "SERVERPEM"
        ⟨"grpchost", 8033, false, none, .pyNone, .pyNone, .bytes "CLIENTCERT"⟩ =
      .secureChannel ("grpchost" ++ ":" ++ toString (8033 : Int)) creds :=
  C1_mtls_partial_amended (fun _ => none) "SERVERPEM"
    ⟨"grpchost", 8033, false, none, .pyNone, .pyNone, .bytes "CLIENTCERT"⟩
    (by decide) (by decide) rfl ⟨none, rfl⟩ ⟨some "CLIENTCERT", rfl⟩ ⟨none, rfl⟩

/-- C5: a keyword parameter with no corresponding field in the
discovered request schema makes both the unary dispatcher
(`_make_request`) and the streaming path raise `InvalidArgument` with
message `Unsupported kwarg: <name>=<value>` naming an offending key;
the result is the raised error, not a dispatched RPC. -/
theorem C5_unsupported_kwarg :
    (∀ (schema : List String) (mn sn : String) (kwargs : List (String × String))
        (k : String) (v : String),
        (k, v) ∈ kwargs → schema.contains k = false → k ≠ "model_id" →
        ∃ key val,
          grpc_make_request schema mn sn kwargs =
              .invalidArgument ("Unsupported kwarg: " ++ key ++ "=" ++ val) ∧
            schema.contains key = false ∧ ∃ v', (key, v') ∈ kwargs)
    ∧ (∀ (schema : List String) (model_id text : String)
        (kwargs : List (String × String)) (k : String) (v : String),
        model_id ≠ "" → (k, v) ∈ kwargs → schema.contains k = false →
        ∃ key val,
          grpc_generate_text_stream schema model_id text kwargs =
              .invalidArgument ("Unsupported kwarg: " ++ key ++ "=" ++ val) ∧
            schema.contains key = false)
    ∧ (grpc_generate_text
          ["text", "max_new_tokens", "min_new_tokens", "preserve_input_text"]
          "m" "t" [("bogus_param", "1")] =
        .invalidArgument "Unsupported kwarg: bogus_param=1")
    ∧ (grpc_generate_text_stream
          ["text", "max_new_tokens", "min_new_tokens", "preserve_input_text"]
          "m" "t" [("bogus_param", "1")] =
        .invalidArgument "Unsupported kwarg: bogus_param=1") := by
  refine ⟨?_, ?_, by decide, by decide⟩
  · intro schema mn sn kwargs k v hmem hk hkm
    have hmem' : (k, v) ∈
        (if (kwargs.lookup "model_id").isSome then
          kwargs.filter (fun kv => kv.1 ≠ "model_id")
        else kwargs) := by
      split
      · rw [List.mem_filter]
        exact ⟨hmem, by simp [hkm]⟩
      · exact hmem
    have hsome :
        ((if (kwargs.lookup "model_id").isSome then
            kwargs.filter (fun kv => kv.1 ≠ "model_id")
          else kwargs).find? (fun kv => !schema.contains kv.1)).isSome := by
      rw [List.find?_isSome]
      exact ⟨(k, v), hmem', by simpa using hk⟩
    obtain ⟨kv, hkv⟩ := Option.isSome_iff_exists.mp hsome
    have hpkv := List.find?_some hkv
    have hkvmem := List.mem_of_find?_eq_some hkv
    have hkvorig : kv ∈ kwargs := by
      revert hkvmem
      split
      · intro hm
        exact (List.mem_filter.mp hm).1
      · exact id
    refine ⟨kv.1,
      pyGet
        (if (kwargs.lookup "model_id").isSome then
          kwargs.filter (fun kv => kv.1 ≠ "model_id")
        else kwargs) kv.1, ?_, by simpa using hpkv, kv.2, hkvorig⟩
    simp only [grpc_make_request, protoNewMessage]
    rw [hkv]
  · intro schema model_id text kwargs k v hm hmem hk
    have hsome :
        ((("text", text) :: kwargs).find? (fun kv => !schema.contains kv.1)).isSome := by
      rw [List.find?_isSome]
      exact ⟨(k, v), List.mem_cons_of_mem _ hmem, by simpa using hk⟩
    obtain ⟨kv, hkv⟩ := Option.isSome_iff_exists.mp hsome
    have hpkv := List.find?_some hkv
    refine ⟨kv.1, pyGet kwargs kv.1, ?_, by simpa using hpkv⟩
    simp only [grpc_generate_text_stream, protoNewMessage]
    rw [if_neg hm, hkv]

/-- Witness for C5 at the spec's concrete instance: `bogus_param`
absent from the discovered schema is reported by name on the unary
path. -/
theorem C5_unsupported_kwarg_witness :
    ∃ key val,
      grpc_make_request ["text", "max_new_tokens"] "TextGenerationTaskPredict"
          "caikit.runtime.Nlp.NlpService"
          [("model_id", "m"), ("text", "t"), ("bogus_param", "1")] =
          .invalidArgument ("Unsupported kwarg: " ++ key ++ "=" ++ val) ∧
        ["text", "max_new_tokens"].contains key = false ∧
        ∃ v', (key, v') ∈ [("model_id", "m"), ("text", "t"), ("bogus_param", "1")] :=
  C5_unsupported_kwarg.1 ["text", "max_new_tokens"] "TextGenerationTaskPredict"
    "caikit.runtime.Nlp.NlpService"
    [("model_id", "m"), ("text", "t"), ("bogus_param", "1")]
    "bogus_param" "1" (by decide) (by decide) (by decide)

/-- C3 counterexample: a non-200 response whose JSON body carries the
`detail` key (not `details`) makes `generate_text` raise a raw
`KeyError` — its handler probes only `details` (only
`json.JSONDecodeError` is caught), so no `RuntimeFailure` carrying
"bad input" is produced on this path. -/
theorem C3_http_error_counterexample :
    generate_text_handle
        ⟨422, some [("detail", .str "bad input")], "Unprocessable Entity", "body"⟩ =
      .keyError "details" := by
  decide

/-- C3 amended: neither handler ever returns a result for a non-200
response.  The task POSTs dispatched through
`_unpack_or_raise_details` probe both the `details` and the `detail`
key of the JSON error body and raise `RuntimeFailure` carrying the
status code and the extracted detail, falling back to the HTTP reason
phrase when the body is not JSON; in particular `{"detail": "bad
input"}` yields a `RuntimeFailure` containing "bad input" and the
status code.  The `generate_text` POST, however, probes only
`details`: with a `details` key or a non-JSON body it raises
`RuntimeFailure` as described, but a JSON error body without a
`details` key raises a raw `KeyError`. -/
theorem C3_http_error_amended :
    (∀ r : HttpResponse, r.status ≠ 200 → ∀ o, unpack_or_raise_details r ≠ .ok o)
    ∧ (∀ r : HttpResponse, r.status ≠ 200 → ∀ v, generate_text_handle r ≠ .okVal v)
    ∧ (∀ (r : HttpResponse) (o : JsonObj) (v : JsonVal), r.status ≠ 200 →
        r.jsonBody = some o → jsonGet o "details" = some v →
        unpack_or_raise_details r =
          .runtimeError (statusPrefix r.status ++ v.pyFormat))
    ∧ (∀ (r : HttpResponse) (o : JsonObj) (v : JsonVal), r.status ≠ 200 →
        r.jsonBody = some o → jsonGet o "details" = none →
        jsonGet o "detail" = some v →
        unpack_or_raise_details r =
          .runtimeError (statusPrefix r.status ++ v.pyFormat))
    ∧ (∀ r : HttpResponse, r.status ≠ 200 → r.jsonBody = none →
        unpack_or_raise_details r =
          .runtimeError
            (statusPrefix r.status ++ r.reason ++ " response.text=" ++ pyRepr r.text) ∧
        generate_text_handle r =
          .runtimeError
            (statusPrefix r.status ++ r.reason ++ " response.text=" ++ pyRepr r.text))
    ∧ (∀ (r : HttpResponse) (o : JsonObj) (v : JsonVal), r.status ≠ 200 →
        r.jsonBody = some o → jsonGet o "details" = some v →
        generate_text_handle r =
          .runtimeError (statusPrefix r.status ++ v.pyFormat))
    ∧ (∀ (r : HttpResponse) (o : JsonObj), r.status ≠ 200 →
        r.jsonBody = some o → jsonGet o "details" = none →
        generate_text_handle r = .keyError "details")
    ∧ (unpack_or_raise_details
          ⟨422, some [("detail", .str "bad input")], "Unprocessable Entity", "body"⟩ =
        .runtimeError "response.status_code=422 bad input") := by
  refine ⟨?_, ?_, ?_, ?_, ?_, ?_, ?_, by decide⟩
  · intro r h o
    cases hb : r.jsonBody with
    | none => simp [unpack_or_raise_details, h, hb]
    | some ob =>
      cases hg : jsonGet ob (if jsonHasKey ob "details" then "details" else "detail") with
      | none => simp [unpack_or_raise_details, h, hb, hg]
      | some v => simp [unpack_or_raise_details, h, hb, hg]
  · intro r h v
    cases hb : r.jsonBody with
    | none => simp [generate_text_handle, h, hb]
    | some ob =>
      cases hg : jsonGet ob "details" with
      | none => simp [generate_text_handle, h, hb, hg]
      | some w => simp [generate_text_handle, h, hb, hg]
  · intro r o v h hb hd
    simp [unpack_or_raise_details, h, hb, jsonHasKey, hd]
  · intro r o v h hb hd hd2
    simp [unpack_or_raise_details, h, hb, jsonHasKey, hd, hd2]
  · intro r h hb
    exact ⟨by simp [unpack_or_raise_details, h, hb],
      by simp [generate_text_handle, h, hb]⟩
  · intro r o v h hb hd
    simp [generate_text_handle, h, hb, hd]
  · intro r o h hb hd
    simp [generate_text_handle, h, hb, hd]

/-- Witness for C3 (amended) at concrete responses: a `details`-keyed
body, a `detail`-keyed body, and a non-JSON body for the task-POST
handler, and a `detail`-keyed body for the `generate_text` handler. -/
theorem C3_http_error_amended_witness :
    unpack_or_raise_details
        ⟨500, some [("details", .str "inference failed")], "Internal Server Error", "x"⟩ =
      .runtimeError "response.status_code=500 inference failed" ∧
    unpack_or_raise_details
        ⟨422, some [("detail", .str "bad input")], "Unprocessable Entity", "x"⟩ =
      .runtimeError "response.status_code=422 bad input" ∧
    unpack_or_raise_details ⟨502, none, "Bad Gateway", "oops"⟩ =
      .runtimeError ("response.status_code=502 " ++ "Bad Gateway" ++
        " response.text=" ++ pyRepr "oops") ∧
    generate_text_handle
        ⟨422, some [("detail", .str "bad input")], "Unprocessable Entity", "x"⟩ =
      .keyError "details" :=
  ⟨C3_http_error_amended.2.2.1
      ⟨500, some [("details", .str "inference failed")], "Internal Server Error", "x"⟩
      [("details", .str "inference failed")] (.str "inference failed")
      (by decide) rfl (by decide),
    C3_http_error_amended.2.2.2.1
      ⟨422, some [("detail", .str "bad input")], "Unprocessable Entity", "x"⟩
      [("detail", .str "bad input")] (.str "bad input")
      (by decide) rfl (by decide) (by decide),
    (C3_http_error_amended.2.2.2.2.1 ⟨502, none, "Bad Gateway", "oops"⟩
      (by decide) rfl).1,
    C3_http_error_amended.2.2.2.2.2.2.1
      ⟨422, some [("detail", .str "bad input")], "Unprocessable Entity", "x"⟩
      [("detail", .str "bad input")] (by decide) rfl (by decide)⟩

/-- C2: the streaming frame reassembler strips the `data: ` framing
prefix of each data line and appends the remainder to the buffer; on a
blank line it attempts to decode the joined buffer, keeping the buffer
unchanged (without raising) when decoding fails and clearing the
buffer and yielding the decoded object when it succeeds; at stream end
a non-empty residual buffer is decoded and yielded.  In particular
`[b"data: {"a":1}", b"", b"data: {"a":2}", b""]` yields `{"a":1}` then
`{"a":2}`, and the same input without the trailing blank line still
yields both objects. -/
theorem C2_reassembler :
    (∀ (decode : String → Option JsonObj) (buffer : List String) (line : String)
        (rest : List String), startsWithB line "data: " = true →
        reassemble_lines decode buffer (line :: rest) =
          reassemble_lines decode (buffer ++ [dropB line 6]) rest)
    ∧ (∀ (decode : String → Option JsonObj) (buffer rest : List String),
        decode (String.join buffer) = none →
        reassemble_lines decode buffer ("" :: rest) =
          reassemble_lines decode buffer rest)
    ∧ (∀ (decode : String → Option JsonObj) (buffer rest : List String) (m : JsonObj),
        decode (String.join buffer) = some m →
        reassemble_lines decode buffer ("" :: rest) =
          ⟨m :: (reassemble_lines decode [] rest).frames,
            (reassemble_lines decode [] rest).ending⟩)
    ∧ (∀ (decode : String → Option JsonObj) (buffer : List String) (m : JsonObj),
        buffer ≠ [] → decode (String.join buffer) = some m →
        reassemble_lines decode buffer [] = ⟨[m], .ok⟩)
    ∧ (reassemble jsonDecode
          ["data: \x7b\"a\":1\x7d", "", "data: \x7b\"a\":2\x7d", ""] =
        ⟨[[("a", .int 1)], [("a", .int 2)]], .ok⟩)
    ∧ (reassemble jsonDecode
          ["data: \x7b\"a\":1\x7d", "", "data: \x7b\"a\":2\x7d"] =
        ⟨[[("a", .int 1)], [("a", .int 2)]], .ok⟩) := by
  refine ⟨?_, ?_, ?_, ?_, by decide, by decide⟩
  · intro decode buffer line rest h
    have hne : line ≠ "" := by
      intro he
      rw [he] at h
      exact absurd h (by decide)
    simp [reassemble_lines, hne, h]
  · intro decode buffer rest h
    simp [reassemble_lines, h]
  · intro decode buffer rest m h
    simp [reassemble_lines, h]
  · intro decode buffer m hb h
    cases buffer with
    | nil => exact absurd rfl hb
    | cons a l => simp [reassemble_lines, h]

/-- Witness for C2 at concrete inputs: one data line is appended with
its prefix stripped; a blank line with an undecodable buffer keeps the
buffer; a blank line with a decodable buffer clears it and yields; a
non-empty residual buffer at stream end is decoded and yielded. -/
theorem C2_reassembler_witness :
    reassemble_lines jsonDecode [] ["data: \x7b\"a\":1\x7d"] =
      reassemble_lines jsonDecode ([] ++ [dropB "data: \x7b\"a\":1\x7d" 6]) [] ∧
    reassemble_lines jsonDecode ["\x7b\"a\":1"] ("" :: []) =
      reassemble_lines jsonDecode ["\x7b\"a\":1"] [] ∧
    reassemble_lines jsonDecode ["\x7b\"a\":1\x7d"] ("" :: []) =
      ⟨[("a", JsonVal.int 1)] :: (reassemble_lines jsonDecode [] []).frames,
        (reassemble_lines jsonDecode [] []).ending⟩ ∧
    reassemble_lines jsonDecode ["\x7b\"a\":2\x7d"] [] =
      ⟨[[("a", JsonVal.int 2)]], .ok⟩ :=
  ⟨C2_reassembler.1 jsonDecode [] "data: \x7b\"a\":1\x7d" [] (by decide),
    C2_reassembler.2.1 jsonDecode ["\x7b\"a\":1"] [] (by decide),
    C2_reassembler.2.2.1 jsonDecode ["\x7b\"a\":1\x7d"] [] [("a", JsonVal.int 1)]
      (by decide),
    C2_reassembler.2.2.2.1 jsonDecode ["\x7b\"a\":2\x7d"] [("a", JsonVal.int 2)]
      (by decide) (by decide)⟩

/-- C8: a decoded frame carrying both a `details` and a `code` key
aborts the stream with `RuntimeFailure` carrying the `details` value
and nothing further is yielded — both when the frame is decoded
mid-stream (at a blank line) and when it is the final residual
message; the remaining input lines are discarded.  The concrete runs
show an earlier frame still being yielded before the abort and a later
frame never being yielded. -/
theorem C8_stream_error_marker :
    (∀ (decode : String → Option JsonObj) (buffer rest : List String)
        (m : JsonObj) (v : JsonVal),
        decode (String.join buffer) = some m → jsonGet m "details" = some v →
        jsonHasKey m "code" = true →
        generate_text_stream_lines decode buffer ("" :: rest) =
          ⟨[], .runtimeError ("Exception iterating responses: " ++ v.pyFormat)⟩)
    ∧ (∀ (decode : String → Option JsonObj) (buffer : List String)
        (m : JsonObj) (v : JsonVal),
        buffer ≠ [] → decode (String.join buffer) = some m →
        jsonGet m "details" = some v → jsonHasKey m "code" = true →
        generate_text_stream_lines decode buffer [] =
          ⟨[], .runtimeError ("Exception iterating responses: " ++ v.pyFormat)⟩)
    ∧ (generate_text_stream_run jsonDecode
          ["data: \x7b\"generated_text\":\"hi\"\x7d", "",
            "data: \x7b\"details\":\"boom\",\"code\":400\x7d", "",
            "data: \x7b\"generated_text\":\"bye\"\x7d", ""] =
        ⟨[.str "hi"], .runtimeError "Exception iterating responses: boom"⟩)
    ∧ (generate_text_stream_run jsonDecode
          ["data: \x7b\"generated_text\":\"hi\"\x7d", "",
            "data: \x7b\"details\":\"boom\",\"code\":400\x7d"] =
        ⟨[.str "hi"], .runtimeError "Exception iterating responses: boom"⟩) := by
  refine ⟨?_, ?_, by decide, by decide⟩
  · intro decode buffer rest m v hd hdet hcode
    simp only [jsonHasKey] at hcode
    simp [generate_text_stream_lines, hd, jsonHasKey, hdet, hcode, pyFormatOpt]
  · intro decode buffer m v hb hd hdet hcode
    simp only [jsonHasKey] at hcode
    cases buffer with
    | nil => exact absurd rfl hb
    | cons a l =>
      simp [generate_text_stream_lines, hd, jsonHasKey, hdet, hcode, pyFormatOpt]

/-- Witness for C8 at concrete inputs: an error frame decoded at a
blank line and one decoded from the residual buffer at stream end. -/
theorem C8_stream_error_marker_witness :
    generate_text_stream_lines jsonDecode ["\x7b\"details\":\"boom\",\"code\":400\x7d"]
        ("" :: ["data: \x7b\"generated_text\":\"bye\"\x7d", ""]) =
      ⟨[], .runtimeError ("Exception iterating responses: " ++ (JsonVal.str "boom").pyFormat)⟩ ∧
    generate_text_stream_lines jsonDecode ["\x7b\"details\":\"boom\",\"code\":400\x7d"] [] =
      ⟨[], .runtimeError ("Exception iterating responses: " ++ (JsonVal.str "boom").pyFormat)⟩ :=
  ⟨C8_stream_error_marker.1 jsonDecode ["\x7b\"details\":\"boom\",\"code\":400\x7d"]
      ["data: \x7b\"generated_text\":\"bye\"\x7d", ""]
      [("details", .str "boom"), ("code", .int 400)] (.str "boom")
      (by decide) (by decide) (by decide),
    C8_stream_error_marker.2.1 jsonDecode ["\x7b\"details\":\"boom\",\"code\":400\x7d"]
      [("details", .str "boom"), ("code", .int 400)] (.str "boom")
      (by decide) (by decide) (by decide) (by decide)⟩

/-- C9 counterexample: a frame lacking `generated_text` decoded
mid-stream (at a blank line) raises a raw `KeyError`, not
`RuntimeFailure("generated text is missing")` — only the
final-residual yield is guarded by `try/except KeyError`. -/
theorem C9_missing_generated_text_counterexample :
    generate_text_stream_run jsonDecode ["data: \x7b\"a\":1\x7d", ""] =
        ⟨[], .keyError⟩ ∧
      generate_text_stream_run jsonDecode ["data: \x7b\"a\":1\x7d", ""] ≠
        ⟨[], .runtimeError
          "Unexpected response from the server: generated text is missing"⟩ := by
  exact ⟨by decide, by decide⟩

/-- C9 amended: only for the final residual frame (decoded from the
leftover buffer at stream end) does a missing `generated_text` key
raise `RuntimeFailure` ("... generated text is missing"); a frame
lacking the key decoded mid-stream propagates a raw `KeyError`
instead. -/
theorem C9_missing_generated_text_amended :
    (∀ (decode : String → Option JsonObj) (buffer : List String) (m : JsonObj),
        buffer ≠ [] → decode (String.join buffer) = some m →
        jsonGet m "generated_text" = none →
        ¬(jsonHasKey m "details" = true ∧ jsonHasKey m "code" = true) →
        generate_text_stream_lines decode buffer [] =
          ⟨[], .runtimeError
            "Unexpected response from the server: generated text is missing"⟩)
    ∧ (∀ (decode : String → Option JsonObj) (buffer rest : List String) (m : JsonObj),
        decode (String.join buffer) = some m →
        jsonGet m "generated_text" = none →
        ¬(jsonHasKey m "details" = true ∧ jsonHasKey m "code" = true) →
        generate_text_stream_lines decode buffer ("" :: rest) = ⟨[], .keyError⟩)
    ∧ (generate_text_stream_run jsonDecode ["data: \x7b\"a\":1\x7d"] =
        ⟨[], .runtimeError
          "Unexpected response from the server: generated text is missing"⟩) := by
  refine ⟨?_, ?_, by decide⟩
  · intro decode buffer m hb hd hg hm
    cases buffer with
    | nil => exact absurd rfl hb
    | cons a l => simp [generate_text_stream_lines, hd, hg, hm]
  · intro decode buffer rest m hd hg hm
    simp [generate_text_stream_lines, hd, hg, hm]

/-- Witness for C9 (amended) at concrete inputs: a residual frame
without `generated_text` at stream end versus the same frame decoded
at a blank line. -/
theorem C9_missing_generated_text_amended_witness :
    generate_text_stream_lines jsonDecode ["\x7b\"a\":1\x7d"] [] =
      ⟨[], .runtimeError
        "Unexpected response from the server: generated text is missing"⟩ ∧
    generate_text_stream_lines jsonDecode ["\x7b\"a\":1\x7d"] ("" :: []) =
      ⟨[], .keyError⟩ :=
  ⟨C9_missing_generated_text_amended.1 jsonDecode ["\x7b\"a\":1\x7d"]
      [("a", JsonVal.int 1)] (by decide) (by decide) (by decide) (by decide),
    C9_missing_generated_text_amended.2.1 jsonDecode ["\x7b\"a\":1\x7d"] []
      [("a", JsonVal.int 1)] (by decide) (by decide) (by decide)⟩

end CaikitNlp
